import Mathlib

/-!
Verification development for the real-time subtitle pipeline
(JifeSubtitles).  The definitions below are shallow embeddings of the
Python source:

* `put_nowait` / `drain_keep_newest` / `queue_get` — the bounded work
  queue between capture and inference (`queue.Queue` plus the producer
  in `app/audio/capture.py::AudioCapture._deliver_chunk` and the
  consumer-side drain in `subtitle-product/app/main.py::processing_loop`).
* `dispatch_engine_check` / `swap_trace` — the engine-handle handling of
  `jife-windows/app/main.py` (`processing_loop` and `switch_model`).
* `mean_square` / `deliver_chunk` — the RMS silence gate of
  `AudioCapture._deliver_chunk`.
* VAD segmenter (`process_window`, `flush_speech_buffer`, `vad_finish`)
  — `jife-windows/app/audio/vad_processor.py::VADProcessor`.
* `is_hallucination_server` and `send_subtitle` —
  `jife-windows/app/web/server.py::SubtitleServer`.

Machine floats are modelled as rationals; chunks of audio are lists of
rational samples; Python strings are lists of characters.
-/

namespace Jife

/-! ### Bounded work queue

`queue.Queue(maxsize)` with the producer's non-blocking `put_nowait`:
the put raises `queue.Full` (and the producer drops the NEW chunk,
`capture.py` line 155-157) exactly when `0 < maxsize ∧ maxsize ≤ len`.
-/

/-- Non-blocking bounded enqueue as used by `AudioCapture._deliver_chunk`:
on `queue.Full` the new chunk is dropped and the queue is left unchanged. -/
def put_nowait {α : Type} (maxsize : Nat) (q : List α) (x : α) : List α :=
  if 0 < maxsize ∧ maxsize ≤ q.length then q else q ++ [x]

/-- Consumer-side drain of `subtitle-product/app/main.py::processing_loop`
(lines 80-97): when more than one chunk is queued, repeatedly
`get_nowait` until empty keeping the last one obtained (the newest),
then put it back. -/
def drain_keep_newest {α : Type} (q : List α) : List α :=
  if 1 < q.length then
    match q.getLast? with
    | some newest => [newest]
    | none => []
  else q

/-- Blocking dequeue (`queue.get`): pops the front element when present. -/
def queue_get {α : Type} (q : List α) : Option α × List α :=
  (q.head?, q.tail)

/-- One consumer cycle of `subtitle-product`'s `processing_loop`:
drain-keep-newest when backed up, then dequeue. -/
def consumer_take {α : Type} (q : List α) : Option α × List α :=
  queue_get (drain_keep_newest q)

/-! ### Engine handle and hot-swap (`jife-windows/app/main.py`) -/

/-- Opaque inference engine handle. -/
structure Engine where
  id : Nat
deriving DecidableEq, Repr

/-- Outcome of one dispatch cycle's engine check (`processing_loop`
lines 96-99): a `None` engine means sleep briefly and continue, never
calling `transcribe`. -/
inductive DispatchAction where
  | skip
  | transcribe (e : Engine)
deriving DecidableEq, Repr

/-- The dispatcher's treatment of the shared engine handle, taken under
`engine_lock`: `if whisper_engine is None: time.sleep(0.1); continue`. -/
def dispatch_engine_check : Option Engine → DispatchAction
  | none => .skip
  | some e => .transcribe e

/-- The successive atomic actions of `switch_model` that can be observed
through the `whisper_engine` global (each listed in source order). -/
inductive SwapStep where
  | captureAndNil   -- `with engine_lock: old = whisper_engine; whisper_engine = None`
  | delOldEngine    -- `del old_engine`
  | gcCollect       -- `gc.collect()`
  | clearCudaCache  -- `torch.cuda.empty_cache(); torch.cuda.synchronize()`
  | sleepHalfSec    -- `time.sleep(0.5)`
  | createEngine    -- `new_engine = create_engine(...)` (slow construction)
  | installNew      -- `with engine_lock: whisper_engine = new_engine`
deriving DecidableEq, Repr

/-- The steps of a successful `switch_model` run, in source order. -/
def switch_model_steps : List SwapStep :=
  [.captureAndNil, .delOldEngine, .gcCollect, .clearCudaCache,
   .sleepHalfSec, .createEngine, .installNew]

/-- Effect of one `switch_model` step on the shared `whisper_engine`
handle. Only `captureAndNil` and `installNew` touch it. -/
def swap_step_engine (newE : Engine) (cur : Option Engine) : SwapStep → Option Engine
  | .captureAndNil => none
  | .installNew => some newE
  | _ => cur

/-- Trace of values taken by the shared engine handle across a
successful `switch_model` run, starting from the old engine. -/
def swap_trace (oldE newE : Engine) : List (Option Engine) :=
  switch_model_steps.scanl (fun cur s => swap_step_engine newE cur s) (some oldE)

/-! ### RMS silence gate (`AudioCapture._deliver_chunk`) -/

/-- Mean of the squared samples of a chunk.  The source computes
`rms = np.sqrt(np.mean(chunk**2))` and tests `rms < 0.02`; since both
sides are nonnegative this is equivalent to `mean_square < (2/100)^2 =
1/2500`, which avoids the (irrational) square root. -/
def mean_square (c : List ℚ) : ℚ :=
  ((c.map fun x => x * x).sum) / (c.length : ℚ)

/-- The silence gate of `_deliver_chunk`: `rms < 0.02`. -/
def silent_chunk (c : List ℚ) : Bool :=
  decide (mean_square c < 1 / 2500)

/-- `AudioCapture._deliver_chunk`: returns the list of callback
invocations (first component) and the output queue after the call
(second component).  A silent chunk is dropped before any delivery;
otherwise the callback is invoked and a non-blocking enqueue is
attempted. -/
def deliver_chunk (maxsize : Nat) (q : List (List ℚ)) (chunk : List ℚ) :
    List (List ℚ) × List (List ℚ) :=
  if silent_chunk chunk then ([], q)
  else ([chunk], put_nowait maxsize q chunk)

/-! ### VAD segmenter (`jife-windows/app/audio/vad_processor.py`) -/

/-- Configuration of `VADProcessor.__init__`.  `pre_buffer_max` is the
precomputed `int(sample_rate * speech_pad_ms / 1000)`. -/
structure VADConfig where
  sample_rate : ℚ
  min_chunk_size : ℚ
  max_chunk_size : ℚ
  min_silence_duration_ms : ℚ
  pre_buffer_max : Nat
deriving DecidableEq, Repr

/-- Mutable state of `VADProcessor`: the speech accumulator, the
silence-run counter (in samples), the in-speech flag and the pre-roll
ring. -/
structure VADState where
  speech_buffer : List ℚ
  silence_frames : Nat
  in_speech : Bool
  pre_buffer : List ℚ
deriving DecidableEq, Repr

/-- Initial `VADProcessor` state after `__init__`. -/
def initVADState : VADState :=
  { speech_buffer := [], silence_frames := 0, in_speech := false, pre_buffer := [] }

/-- `VADProcessor._flush_speech_buffer`: on an empty buffer this
returns immediately; otherwise the accumulated utterance is delivered
(callback and/or queue) exactly when its duration reaches
`min_chunk_size`, and the state is reset (`speech_buffer = []`,
`in_speech = False`, `silence_frames = 0`).  The second component is
the list of delivered utterances. -/
def flush_speech_buffer (cfg : VADConfig) (st : VADState) :
    VADState × List (List ℚ) :=
  if st.speech_buffer = [] then (st, [])
  else
    let duration : ℚ := (st.speech_buffer.length : ℚ) / cfg.sample_rate
    let out := if cfg.min_chunk_size ≤ duration then [st.speech_buffer] else []
    ({ st with speech_buffer := [], in_speech := false, silence_frames := 0 }, out)

/-- After a speech window is appended, `process_audio` checks
`len(self.speech_buffer) / self.sample_rate >= self.max_chunk_size`
and force-flushes when the max duration is reached (the branch the two
speech cases share). -/
def check_max_flush (cfg : VADConfig) (st1 : VADState) : VADState × List (List ℚ) :=
  if cfg.max_chunk_size ≤ (st1.speech_buffer.length : ℚ) / cfg.sample_rate then
    flush_speech_buffer cfg st1
  else (st1, [])

/-- `self.pre_buffer = self.pre_buffer[-self.pre_buffer_max:]` applied
when the pre-roll exceeds its bound; with `pre_buffer_max = 0` the
Python slice `[-0:]` keeps the whole list. -/
def trim_pre_buffer (maxN : Nat) (pb : List ℚ) : List ℚ :=
  if maxN < pb.length ∧ 0 < maxN then pb.drop (pb.length - maxN) else pb

/-- The per-window body of `VADProcessor.process_audio`: `window` is one
fixed-size VAD window and `speech_prob` the score returned by the
external Silero model for it (an external boundary).
`is_speech = speech_prob > 0.5`; the source tests `if not
self.in_speech` first (utterance onset seeded with the pre-roll),
otherwise continues the current utterance, and in both cases then
checks the max-duration force flush; a non-speech window while in
speech counts silence and either flushes on timeout or appends the
short pause; a non-speech window while idle maintains the bounded
pre-roll ring.  Returns the new state and any utterances delivered. -/
def process_window (cfg : VADConfig) (st : VADState)
    (window : List ℚ) (speech_prob : ℚ) : VADState × List (List ℚ) :=
  if 1 / 2 < speech_prob then
    if st.in_speech then
      check_max_flush cfg
        { st with speech_buffer := st.speech_buffer ++ window,
                  silence_frames := 0 }
    else
      check_max_flush cfg
        { st with in_speech := true,
                  speech_buffer := st.pre_buffer ++ window,
                  pre_buffer := [],
                  silence_frames := 0 }
  else
    if st.in_speech then
      if cfg.min_silence_duration_ms
          ≤ (((st.silence_frames + window.length : Nat) : ℚ) / cfg.sample_rate) * 1000 then
        flush_speech_buffer cfg
          { st with silence_frames := st.silence_frames + window.length }
      else
        ({ st with speech_buffer := st.speech_buffer ++ window,
                   silence_frames := st.silence_frames + window.length }, [])
    else
      ({ st with pre_buffer := trim_pre_buffer cfg.pre_buffer_max (st.pre_buffer ++ window) }, [])

/-- `VADProcessor.finish`: flush whatever speech is still buffered at
shutdown. -/
def vad_finish (cfg : VADConfig) (st : VADState) : VADState × List (List ℚ) :=
  if 0 < st.speech_buffer.length then flush_speech_buffer cfg st else (st, [])

/-! ### String helpers

Python strings are embedded as `List Char`; the helpers mirror the
`str` methods used by the filter code (`lower`, `strip`, `split()`,
`' '.join`, the `in` substring test and `str.find`-based
non-overlapping counting). -/

/-- The ASCII space character (code point 32). -/
def spaceChar : Char := Char.ofNat 32

/-- The ASCII apostrophe character (code point 39).  Several source
string literals contain it; they are written here with `*` standing for
the apostrophe and decoded by `pstr`. -/
def apostrophe : Char := Char.ofNat 39

/-- Decode a string literal in which `*` stands for the apostrophe of
the original Python literal. -/
def pstr (s : String) : List Char :=
  s.toList.map fun c => if c = '*' then apostrophe else c

/-- `str.lower()` (the filter text is ASCII). -/
def lowerChars (s : List Char) : List Char :=
  s.map Char.toLower

/-- `str.strip()`: drop leading and trailing whitespace. -/
def stripChars (s : List Char) : List Char :=
  ((s.dropWhile Char.isWhitespace).reverse.dropWhile Char.isWhitespace).reverse

/-- `str.split()` with no argument: split on whitespace runs, no empty
parts. -/
def splitWsAux (cur : List Char) : List Char → List (List Char)
  | [] => if cur = [] then [] else [cur.reverse]
  | c :: rest =>
    if c.isWhitespace then
      if cur = [] then splitWsAux [] rest
      else cur.reverse :: splitWsAux [] rest
    else splitWsAux (c :: cur) rest

/-- `text.split()`. -/
def splitWs (s : List Char) : List (List Char) :=
  splitWsAux [] s

/-- `' '.join(words)`. -/
def joinSpace : List (List Char) → List Char
  | [] => []
  | [w] => w
  | w :: ws => w ++ spaceChar :: joinSpace ws

/-- Does `t` start with `p`? (used to locate substring occurrences). -/
def startsWith : List Char → List Char → Bool
  | [], _ => true
  | _ :: _, [] => false
  | a :: as, b :: bs => a == b && startsWith as bs

/-- Index of the first occurrence of `p` as a contiguous substring of
`t` (`str.find`): `some i` for the smallest such index, else `none`. -/
def firstOccurrence (p : List Char) : List Char → Option Nat
  | [] => if p = [] then some 0 else none
  | c :: rest =>
    if startsWith p (c :: rest) then some 0
    else (firstOccurrence p rest).map (· + 1)

/-- The Python `in` substring test. -/
def containsSub (p t : List Char) : Bool :=
  (firstOccurrence p t).isSome

/-- Non-overlapping occurrence counting of `_is_hallucination`:
`while phrase in temp[pos:]: count += 1; pos = temp.find(phrase, pos) +
len(phrase)` — repeatedly find the next occurrence and jump past it.
`fuel` bounds the recursion (each step of the source loop advances
`pos` by `len(phrase) ≥ 1`, so `t.length + 1` steps suffice). -/
def countOccAux (p : List Char) : Nat → List Char → Nat
  | 0, _ => 0
  | fuel + 1, t =>
    match firstOccurrence p t with
    | none => 0
    | some i => 1 + countOccAux p fuel (t.drop (i + p.length))

/-- Number of non-overlapping occurrences of `p` in `t`. -/
def countOcc (p t : List Char) : Nat :=
  countOccAux p (t.length + 1) t

/-! ### Result filter (`SubtitleServer._is_hallucination`) -/

/-- `self.short_hallucinations` (exact-match list for 1–2 word texts). -/
def short_hallucinations : List (List Char) :=
  [pstr "die", pstr "no", pstr "yes", pstr "oh", pstr "ah", pstr "uh",
   pstr "um", pstr "hmm"]

/-- `self.hallucination_phrases` (substring-match list), with `*`
standing for the apostrophe of the source literal. -/
def hallucination_phrases : List (List Char) :=
  [pstr "thank you for watching", pstr "thank you for your viewing",
   pstr "thanks for watching", pstr "thank you very much",
   pstr "please subscribe", pstr "like and subscribe",
   pstr "see you next time", pstr "see you in the next video",
   pstr "see you in the next", pstr "bye bye", pstr "goodbye",
   pstr "the end", pstr "to be continued", pstr "subtitles by",
   pstr "captions by", pstr "translated by",
   pstr "i*ll come back to you", pstr "and i*ll come back to you",
   pstr "i*ll be back", pstr "i will come back",
   pstr "i*ll die", pstr "i will die", pstr "i*ll kill you",
   pstr "i will kill you", pstr "kill you", pstr "die",
   pstr "i*m going to die", pstr "you*re going to die",
   pstr "i*m dead", pstr "death",
   pstr "what*s that", pstr "what is that", pstr "wow", pstr "what?",
   pstr "i*m going to sleep", pstr "i*m going to bed",
   pstr "going to sleep",
   pstr "i*m going to be able to", pstr "i*m going to be",
   pstr "going to be able to do it", pstr "i*m not going to be able",
   pstr "i don*t know what to do", pstr "i don*t know what to say",
   pstr "i don*t know"]

/-- Pattern 1 of `_is_hallucination`: for texts of at least 6 words,
any contiguous phrase of 3, 4 or 5 words whose non-overlapping
substring count in the lowered text is at least 2 marks a repetition. -/
def repeated_phrase_check (text_lower : List Char) (words : List (List Char)) : Bool :=
  decide (6 ≤ words.length) &&
  ([3, 4, 5].any fun phrase_len =>
    decide (phrase_len * 2 ≤ words.length) &&
    ((List.range (words.length - phrase_len + 1)).any fun i =>
      decide (2 ≤ countOcc (joinSpace ((words.drop i).take phrase_len)) text_lower)))

/-- Pattern 2 of `_is_hallucination`: strip punctuation
(`re.sub(r'[^\w\s]', '', ...)` keeps word characters and whitespace),
then compare the first half of the words with the same-length slice
starting at the midpoint. -/
def repeated_sentence_check (text_lower : List Char) : Bool :=
  let clean_words := splitWs (text_lower.filter fun c =>
    c.isAlphanum || c = '_' || c.isWhitespace)
  decide (4 ≤ clean_words.length) &&
  (let mid := clean_words.length / 2
   let first_half := joinSpace (clean_words.take mid)
   let second_half := joinSpace ((clean_words.drop mid).take (clean_words.take mid).length)
   first_half == second_half)

/-- Pattern 3 of `_is_hallucination`: very short repeated phrases — the
1- or 2-word phrase at the start repeated across the first
`min(len(words), word_count*4)` indices (stepping by the phrase
length). -/
def short_repetition_check (words : List (List Char)) : Bool :=
  decide (3 ≤ words.length) &&
  ([1, 2].any fun word_count =>
    decide (word_count * 3 ≤ words.length) &&
    (let first_phrase := joinSpace (words.take word_count)
     let upper := min words.length (word_count * 4)
     let idxs := List.range' 0 ((upper + word_count - 1) / word_count) word_count
     idxs.all fun i =>
       !(decide (i + word_count ≤ words.length)) ||
       joinSpace ((words.drop i).take word_count) == first_phrase))

/-- `SubtitleServer._is_hallucination`: the early-`return True` chain of
the source becomes a disjunction — short-text exact matches, known
phrase substrings, and the three repetition patterns. -/
def is_hallucination_server (text : List Char) : Bool :=
  let text_lower := stripChars (lowerChars text)
  let words := splitWs text_lower
  (decide (words.length ≤ 2) &&
    (short_hallucinations.contains text_lower ||
     (decide (words.length = 1) && decide (text_lower.length < 4)))) ||
  hallucination_phrases.any (fun phrase => containsSub phrase text_lower) ||
  repeated_phrase_check text_lower words ||
  repeated_sentence_check text_lower ||
  short_repetition_check words

/-! ### Presentation tracking (`SubtitleServer.send_subtitle`) -/

/-- `self.speaker_colors = ['#ffffff', '#00ffff', '#ffff00', '#ff88ff']`
— the palette has 4 colors. -/
def speaker_colors : List (List Char) :=
  [pstr "#ffffff", pstr "#00ffff", pstr "#ffff00", pstr "#ff88ff"]

/-- Python's built-in `round(x, nd)` on the rationals we use: round
half to even at `nd` decimal digits. -/
def pyRound (nd : Nat) (x : ℚ) : ℚ :=
  let m : ℚ := (10 : ℚ) ^ nd
  let y := x * m
  let f : ℤ := ⌊y⌋
  let r := y - (f : ℚ)
  if r < 1 / 2 then (f : ℚ) / m
  else if 1 / 2 < r then ((f + 1 : ℤ) : ℚ) / m
  else (if f % 2 = 0 then (f : ℚ) else ((f + 1 : ℤ) : ℚ)) / m

/-- Speaker update of `send_subtitle`: `if self.last_subtitle_time:`
take the gap to `now`; a gap strictly greater than 2.0 seconds advances
the speaker index modulo the palette size. -/
def advance_speaker (last_time : Option ℚ) (now : ℚ) (speaker : Nat) : Nat :=
  match last_time with
  | none => speaker
  | some t => if 2 < now - t then (speaker + 1) % speaker_colors.length else speaker

/-- A delivered subtitle record (the fields of the `subtitle` dict
built in `send_subtitle`; the free-form metadata dict is out of
scope). -/
structure Subtitle where
  text : List Char
  source : List Char
  latency : ℚ
  timestamp : ℚ
  speaker : Nat
  color : List Char
deriving DecidableEq, Repr

/-- The `SubtitleServer` state touched by `send_subtitle`: the pause
flag, the bounded history ring together with its bound, the
sent-subtitles counter and last-delivery stat, the rolling latency
samples and average, and the speaker tracking. -/
structure ServerState where
  paused : Bool
  subtitle_history : List Subtitle
  max_history : Nat
  subtitles_sent : Nat
  last_subtitle_time_stat : Option ℚ
  latencies : List ℚ
  avg_latency_ms : ℚ
  current_speaker : Nat
  last_subtitle_time : Option ℚ
deriving DecidableEq, Repr

/-- `SubtitleServer.send_subtitle`: guards (empty text, paused,
hallucination filter), then speaker-gap update, subtitle construction,
stats/latency/history updates, and the broadcast (returned as the list
of emitted subtitles).  `now` stands for `datetime.now()` in seconds. -/
def send_subtitle (st : ServerState) (text source : List Char)
    (latency_sec : ℚ) (now : ℚ) : ServerState × List Subtitle :=
  if text = [] ∨ stripChars text = [] then (st, [])
  else if st.paused then (st, [])
  else if is_hallucination_server text then (st, [])
  else
    let speaker := advance_speaker st.last_subtitle_time now st.current_speaker
    let sub : Subtitle :=
      { text := stripChars text
        source := if source = [] then [] else stripChars source
        latency := pyRound 2 latency_sec
        timestamp := now
        speaker := speaker
        color := speaker_colors.getD speaker [] }
    let latencies1 :=
      if 0 < latency_sec then
        let l := st.latencies ++ [latency_sec * 1000]
        if 20 < l.length then l.tail else l
      else st.latencies
    let avg1 :=
      if 0 < latency_sec then pyRound 1 (latencies1.sum / (latencies1.length : ℚ))
      else st.avg_latency_ms
    let hist := st.subtitle_history ++ [sub]
    ({ st with
        current_speaker := speaker
        last_subtitle_time := some now
        subtitles_sent := st.subtitles_sent + 1
        last_subtitle_time_stat := some now
        latencies := latencies1
        avg_latency_ms := avg1
        subtitle_history := if st.max_history < hist.length then hist.tail else hist },
     [sub])

/-! ### Dispatcher duplicate suppression
(`jife-windows/app/main.py::processing_loop`, lines 108-122) -/

/-- The result handling of one dispatch cycle: given the engine output
`text` and the previous `last_output_text`, skip empty or too-short
results, skip a result identical to the immediately preceding delivered
text, otherwise record it and deliver.  Returns the delivered text (if
any) and the new `last_output_text`. -/
def dispatch_result_step (last : List Char) (text : List Char) :
    Option (List Char) × List Char :=
  if text = [] ∨ (stripChars text).length < 2 then (none, last)
  else if text = last then (none, last)
  else (some text, text)

end Jife

namespace Jife

/-! ### Theorems for claims C1, C2, C3 -/

/-- Claim C1, counterexample: with a full queue of capacity 1 holding
chunk `0`, the producer's enqueue of the new chunk `1` leaves the queue
unchanged — the new chunk is dropped and the queue does NOT contain the
most-recently-produced chunk, contradicting the claimed producer-side
drop-oldest-keep-newest policy. -/
theorem C1_counterexample :
    put_nowait 1 [(0 : Nat)] 1 = [0] ∧ (1 : Nat) ∉ put_nowait 1 [(0 : Nat)] 1 := by
  decide

/-- Claim C1, amended: the queue is bounded (an enqueue never grows it
past its capacity) and on a full queue the producer drops the NEW chunk,
leaving the queue unchanged; the drop-oldest-keep-newest drain happens
on the CONSUMER side (`subtitle-product` processing loop): whenever the
consumer observes more than one queued item it drains everything, keeps
only the newest, and processes it, leaving the queue empty. -/
theorem C1_amended {α : Type} (maxsize : Nat) (q : List α) (x : α) :
    (0 < maxsize → q.length ≤ maxsize → (put_nowait maxsize q x).length ≤ maxsize)
    ∧ (0 < maxsize → maxsize ≤ q.length → put_nowait maxsize q x = q)
    ∧ (1 < q.length → consumer_take q = (q.getLast?, [])) := by
  refine ⟨?_, ?_, ?_⟩
  · intro hpos hle
    unfold put_nowait
    rcases Nat.lt_or_ge q.length maxsize with hlt | hge
    · have : ¬ (0 < maxsize ∧ maxsize ≤ q.length) := by omega
      simp only [this, if_false, List.length_append, List.length_singleton]
      omega
    · have : (0 < maxsize ∧ maxsize ≤ q.length) := ⟨hpos, hge⟩
      simp only [this, if_true]
      exact hle
  · intro hpos hfull
    unfold put_nowait
    simp [hpos, hfull]
  · intro hgt
    have hne : q ≠ [] := by
      intro h
      subst h
      simp at hgt
    unfold consumer_take drain_keep_newest queue_get
    simp only [hgt, if_true]
    rcases h : q.getLast? with _ | y
    · exact absurd (List.getLast?_isSome.mpr hne) (by simp [h])
    · simp

/-- Claim C1 witness: capacity-1 queue holding `[5]`, enqueue of `7` is
bounded and dropped; a backed-up queue `[3, 4]` is drained by the
consumer down to its newest element `4`. -/
theorem C1_amended_witness :
    (put_nowait 1 [(5 : Nat)] 7).length ≤ 1
    ∧ put_nowait 1 [(5 : Nat)] 7 = [5]
    ∧ consumer_take [(3 : Nat), 4] = ([(3 : Nat), 4].getLast?, []) :=
  ⟨(C1_amended 1 [5] 7).1 (by decide) (by decide),
   (C1_amended 1 [5] 7).2.1 (by decide) (by decide),
   (C1_amended 1 [3, 4] 7).2.2 (by decide)⟩

/-- Claim C2: during a `switch_model` run the shared engine handle is
set to `None` at the very first step (before the old engine is
released) and stays `None` through release, memory reclamation and the
construction of the replacement, becoming non-`None` only at the final
install step; every dispatch cycle that observes `None` skips (no
transcription). -/
theorem C2_hot_swap (oldE newE : Engine) :
    swap_trace oldE newE
      = [some oldE, none, none, none, none, none, none, some newE]
    ∧ (∀ s ∈ ((swap_trace oldE newE).drop 1).take 6,
        s = none ∧ dispatch_engine_check s = .skip)
    ∧ dispatch_engine_check none = .skip := by
  refine ⟨rfl, ?_, rfl⟩
  intro s hs
  have htr : ((swap_trace oldE newE).drop 1).take 6
      = [none, none, none, none, none, none] := rfl
  rw [htr] at hs
  simp only [List.mem_cons, List.not_mem_nil, or_false] at hs
  rcases hs with h | h | h | h | h | h <;> subst h <;> exact ⟨rfl, rfl⟩

/-- Claim C2 witness: the nil-window states of a concrete swap from
engine 0 to engine 1 are all skipped by the dispatcher. -/
theorem C2_hot_swap_witness :
    (none : Option Engine) = none ∧ dispatch_engine_check none = .skip :=
  (C2_hot_swap ⟨0⟩ ⟨1⟩).2.1 none (by decide)

/-- Claim C3: a chunk whose RMS is below the 0.02 silence threshold
(equivalently, whose mean squared sample is below 1/2500) is never
delivered: the callback is not invoked and the output queue is left
unchanged. -/
theorem C3_silence_gate (maxsize : Nat) (q : List (List ℚ)) (chunk : List ℚ)
    (h : mean_square chunk < 1 / 2500) :
    deliver_chunk maxsize q chunk = ([], q) := by
  unfold deliver_chunk silent_chunk
  rw [if_pos (by exact_mod_cast decide_eq_true h)]

/-- Claim C3 witness: the all-zero chunk `[0, 0]` has mean square `0`
below the threshold and is dropped without delivery. -/
theorem C3_silence_gate_witness :
    deliver_chunk 5 [] [(0 : ℚ), 0] = ([], []) :=
  C3_silence_gate 5 [] [0, 0] (by norm_num [mean_square])

/-! ### Theorems for claims C4, C8, C9 -/

/-- Claim C4, counterexample: with sample rate 1, `min_chunk_size = 1`
and `max_chunk_size = 1`, a single speech window `[1]` (probability 1)
starting from the idle state reaches the max duration and is
force-flushed — and the resulting state has `in_speech = false`: the
force flush returns the segmenter to Idle (flush-and-idle), refuting
the claim that it remains in the InSpeech state. -/
theorem C4_counterexample :
    (process_window ⟨1, 1, 1, 1000, 0⟩ initVADState [1] 1).2 = [[1]]
    ∧ (process_window ⟨1, 1, 1, 1000, 0⟩ initVADState [1] 1).1.in_speech = false := by
  constructor <;>
    norm_num [process_window, check_max_flush, flush_speech_buffer, initVADState]

/-- Claim C4, amended: when a speech window pushes the accumulated
utterance to `max_chunk_size` the utterance is force-flushed and the
segmenter returns to Idle (`in_speech = false`, empty buffer,
silence counter 0) — flush-and-idle, not flush-and-continue; the
immediately following speech window is therefore treated as a fresh
Idle-to-InSpeech onset, starting a new utterance seeded with the
(unchanged) pre-roll buffer. -/
theorem C4_amended (cfg : VADConfig) (st : VADState) (w w' : List ℚ) (p p' : ℚ)
    (hin : st.in_speech = true)
    (hp : 1 / 2 < p)
    (hne : st.speech_buffer ++ w ≠ [])
    (hmax : cfg.max_chunk_size ≤ ((st.speech_buffer ++ w).length : ℚ) / cfg.sample_rate)
    (hp' : 1 / 2 < p')
    (hsmall : ¬ cfg.max_chunk_size ≤ ((st.pre_buffer ++ w').length : ℚ) / cfg.sample_rate) :
    (process_window cfg st w p).1.in_speech = false
    ∧ (process_window cfg st w p).1.speech_buffer = []
    ∧ (process_window cfg st w p).1.silence_frames = 0
    ∧ (process_window cfg st w p).1.pre_buffer = st.pre_buffer
    ∧ (process_window cfg (process_window cfg st w p).1 w' p').1.in_speech = true
    ∧ (process_window cfg (process_window cfg st w p).1 w' p').1.speech_buffer
        = st.pre_buffer ++ w' := by
  have hstep : process_window cfg st w p
      = flush_speech_buffer cfg
          { st with speech_buffer := st.speech_buffer ++ w, silence_frames := 0 } := by
    unfold process_window check_max_flush
    rw [if_pos hp, if_pos hin]
    dsimp only
    rw [if_pos hmax]
  have hflush : flush_speech_buffer cfg
        { st with speech_buffer := st.speech_buffer ++ w, silence_frames := 0 }
      = ((⟨[], 0, false, st.pre_buffer⟩ : VADState),
         if cfg.min_chunk_size ≤ ((st.speech_buffer ++ w).length : ℚ) / cfg.sample_rate
         then [st.speech_buffer ++ w] else []) := by
    unfold flush_speech_buffer
    dsimp only
    rw [if_neg hne]
  have hstep2 : process_window cfg (⟨[], 0, false, st.pre_buffer⟩ : VADState) w' p'
      = ((⟨st.pre_buffer ++ w', 0, true, []⟩ : VADState), []) := by
    unfold process_window check_max_flush
    rw [if_pos hp']
    dsimp only
    rw [if_neg Bool.false_ne_true]
    rw [if_neg hsmall]
  rw [hstep, hflush]
  refine ⟨rfl, rfl, rfl, rfl, ?_, ?_⟩ <;>
  · dsimp only
    rw [hstep2]

/-- Claim C4 witness: rate 1, max 2; an in-speech state holding `[1]`
hit by speech window `[1]` force-flushes to Idle, and the next speech
window `[1]` starts a fresh utterance. -/
theorem C4_amended_witness :
    (process_window ⟨1, 1, 2, 1000, 0⟩ ⟨[1], 0, true, []⟩ [1] 1).1.in_speech = false
    ∧ (process_window ⟨1, 1, 2, 1000, 0⟩ ⟨[1], 0, true, []⟩ [1] 1).1.speech_buffer = []
    ∧ (process_window ⟨1, 1, 2, 1000, 0⟩ ⟨[1], 0, true, []⟩ [1] 1).1.silence_frames = 0
    ∧ (process_window ⟨1, 1, 2, 1000, 0⟩ ⟨[1], 0, true, []⟩ [1] 1).1.pre_buffer = []
    ∧ (process_window ⟨1, 1, 2, 1000, 0⟩
        (process_window ⟨1, 1, 2, 1000, 0⟩ ⟨[1], 0, true, []⟩ [1] 1).1 [1] 1).1.in_speech = true
    ∧ (process_window ⟨1, 1, 2, 1000, 0⟩
        (process_window ⟨1, 1, 2, 1000, 0⟩ ⟨[1], 0, true, []⟩ [1] 1).1 [1] 1).1.speech_buffer
        = [] ++ [1] :=
  C4_amended ⟨1, 1, 2, 1000, 0⟩ ⟨[1], 0, true, []⟩ [1] [1] 1 1
    rfl (by norm_num) (by simp) (by norm_num) (by norm_num) (by norm_num)

/-- Claim C8: flushing a non-empty accumulated utterance delivers it
exactly when its duration reaches `min_chunk_size` (shorter utterances
are discarded with nothing delivered), and the buffer is reset either
way. -/
theorem C8_flush_min_size (cfg : VADConfig) (st : VADState)
    (hb : st.speech_buffer ≠ []) :
    (flush_speech_buffer cfg st).2
      = (if cfg.min_chunk_size ≤ (st.speech_buffer.length : ℚ) / cfg.sample_rate
         then [st.speech_buffer] else [])
    ∧ (flush_speech_buffer cfg st).1.speech_buffer = [] := by
  unfold flush_speech_buffer
  simp [hb]

/-- Claim C8 witness: at rate 1 with `min_chunk_size = 2`, a 1-sample
utterance is discarded (nothing delivered) and a 2-sample utterance is
delivered. -/
theorem C8_flush_min_size_witness :
    ((flush_speech_buffer ⟨1, 2, 10, 500, 0⟩ ⟨[1], 0, true, []⟩).2
        = (if (2 : ℚ) ≤ (([(1 : ℚ)].length : ℚ) / 1) then [[(1 : ℚ)]] else [])
      ∧ (flush_speech_buffer ⟨1, 2, 10, 500, 0⟩ ⟨[1], 0, true, []⟩).1.speech_buffer = [])
    ∧ ((flush_speech_buffer ⟨1, 2, 10, 500, 0⟩ ⟨[1, 1], 0, true, []⟩).2
        = (if (2 : ℚ) ≤ (([(1 : ℚ), 1].length : ℚ) / 1) then [[(1 : ℚ), 1]] else [])
      ∧ (flush_speech_buffer ⟨1, 2, 10, 500, 0⟩ ⟨[1, 1], 0, true, []⟩).1.speech_buffer = []) :=
  ⟨C8_flush_min_size ⟨1, 2, 10, 500, 0⟩ ⟨[1], 0, true, []⟩ (List.cons_ne_nil 1 []),
   C8_flush_min_size ⟨1, 2, 10, 500, 0⟩ ⟨[1, 1], 0, true, []⟩ (List.cons_ne_nil 1 [1])⟩

/-- Claim C9: `finish()` on a non-empty buffered utterance performs the
flush (so pending speech is handed to the normal flush path at
teardown); in particular, whenever the pending utterance has reached
`min_chunk_size` it is delivered. -/
theorem C9_finish_flushes (cfg : VADConfig) (st : VADState)
    (hb : st.speech_buffer ≠ []) :
    vad_finish cfg st = flush_speech_buffer cfg st
    ∧ (cfg.min_chunk_size ≤ (st.speech_buffer.length : ℚ) / cfg.sample_rate →
        (vad_finish cfg st).2 = [st.speech_buffer]) := by
  have hlen : 0 < st.speech_buffer.length := List.length_pos.mpr hb
  constructor
  · unfold vad_finish
    simp [hlen]
  · intro hmin
    unfold vad_finish
    simp only [hlen, if_true]
    unfold flush_speech_buffer
    simp [hb, hmin]

/-- Claim C9 witness: at rate 1 with `min_chunk_size = 1`, finishing
with the pending utterance `[1]` delivers it. -/
theorem C9_finish_flushes_witness :
    vad_finish ⟨1, 1, 10, 500, 0⟩ ⟨[1], 0, true, []⟩
      = flush_speech_buffer ⟨1, 1, 10, 500, 0⟩ ⟨[1], 0, true, []⟩
    ∧ (vad_finish ⟨1, 1, 10, 500, 0⟩ ⟨[1], 0, true, []⟩).2 = [[(1 : ℚ)]] :=
  ⟨(C9_finish_flushes ⟨1, 1, 10, 500, 0⟩ ⟨[1], 0, true, []⟩ (List.cons_ne_nil 1 [])).1,
   (C9_finish_flushes ⟨1, 1, 10, 500, 0⟩ ⟨[1], 0, true, []⟩ (List.cons_ne_nil 1 [])).2
     (by norm_num)⟩

/-! ### Theorems for claims C5, C6, C7, C10 -/

/-- Claim C5, counterexample: a gap of exactly 2.0 seconds does NOT
advance the speaker index — the source tests `gap > 2.0` strictly, so
the claimed behaviour at `gap = 2.0` (advance by exactly one) fails. -/
theorem C5_counterexample :
    (2 : ℚ) - 0 ≥ 2
    ∧ advance_speaker (some 0) 2 0 = 0
    ∧ advance_speaker (some 0) 2 0 ≠ (0 + 1) % speaker_colors.length := by
  refine ⟨by norm_num, ?_, ?_⟩ <;> norm_num [advance_speaker, speaker_colors]

/-- Claim C5, amended: between two consecutive deliveries, a gap of AT
MOST 2.0 seconds keeps the speaker index unchanged, and a gap STRICTLY
GREATER than 2.0 seconds advances it by exactly one modulo the palette
size (4 colors). -/
theorem C5_amended (t now : ℚ) (sp : Nat) :
    speaker_colors.length = 4
    ∧ (now - t ≤ 2 → advance_speaker (some t) now sp = sp)
    ∧ (2 < now - t → advance_speaker (some t) now sp = (sp + 1) % 4) := by
  refine ⟨rfl, ?_, ?_⟩
  · intro h
    simp only [advance_speaker]
    rw [if_neg (not_lt.mpr h)]
  · intro h
    simp only [advance_speaker]
    rw [if_pos h]
    rfl

/-- Claim C5 witness: a gap of 1 second keeps the speaker, a gap of 2.5
seconds advances it from 0 to 1 mod 4. -/
theorem C5_amended_witness :
    advance_speaker (some 0) 1 0 = 0
    ∧ advance_speaker (some 0) (5 / 2) 0 = (0 + 1) % 4 :=
  ⟨(C5_amended 0 1 0).2.1 (by norm_num), (C5_amended 0 (5 / 2) 0).2.2 (by norm_num)⟩

/-- Claim C6, counterexample: in `"the dog ran and the dog sat"` the
2-word phrase `"the dog"` recurs twice (and the text has 7 words), yet
the filter accepts the text — contiguous phrases of length 1 or 2
recurring twice are NOT generally rejected, refuting the claim's
"phrase lengths 1 to 5" universality. -/
theorem C6_counterexample :
    countOcc (pstr "the dog")
        (stripChars (lowerChars (pstr "the dog ran and the dog sat"))) = 2
    ∧ (splitWs (stripChars (lowerChars (pstr "the dog ran and the dog sat")))).length = 7
    ∧ is_hallucination_server (pstr "the dog ran and the dog sat") = false := by
  refine ⟨by decide, by decide, by decide⟩

/-- Claim C6, amended: the repetition filter guarantees rejection for
phrase lengths 3 to 5: whenever the lowered, stripped text has a
contiguous phrase of `L ∈ {3,4,5}` words occurring at least twice as
non-overlapping substrings (with at least `2·L` words in total), the
text is rejected; phrases of length 1–2 are only caught by the
separate half-repetition and all-repetition patterns.  The two spec
examples behave as stated: `"the cat sat, the cat sat"` is rejected and
`"the cat sat on the mat"` is accepted. -/
theorem C6_amended :
    (∀ (text : List Char) (L i : Nat), L ∈ ([3, 4, 5] : List Nat) →
        L * 2 ≤ (splitWs (stripChars (lowerChars text))).length →
        i < (splitWs (stripChars (lowerChars text))).length - L + 1 →
        2 ≤ countOcc (joinSpace (((splitWs (stripChars (lowerChars text))).drop i).take L))
              (stripChars (lowerChars text)) →
        is_hallucination_server text = true)
    ∧ is_hallucination_server (pstr "the cat sat, the cat sat") = true
    ∧ is_hallucination_server (pstr "the cat sat on the mat") = false := by
  refine ⟨?_, by decide, by decide⟩
  intro text L i hL hlen hi hcount
  have hch : repeated_phrase_check (stripChars (lowerChars text))
      (splitWs (stripChars (lowerChars text))) = true := by
    have h6 : 6 ≤ (splitWs (stripChars (lowerChars text))).length := by
      rcases (by simpa using hL : L = 3 ∨ L = 4 ∨ L = 5) with rfl | rfl | rfl <;> omega
    unfold repeated_phrase_check
    rw [Bool.and_eq_true]
    refine ⟨decide_eq_true h6, ?_⟩
    rw [List.any_eq_true]
    refine ⟨L, hL, ?_⟩
    rw [Bool.and_eq_true]
    refine ⟨decide_eq_true hlen, ?_⟩
    rw [List.any_eq_true]
    exact ⟨i, List.mem_range.mpr hi, decide_eq_true hcount⟩
  simp [is_hallucination_server, hch]

/-- Claim C6 witness: the 3-word phrase at index 3 of
`"the cat sat, the cat sat"` recurs twice, so the amended guarantee
rejects the text. -/
theorem C6_amended_witness :
    is_hallucination_server (pstr "the cat sat, the cat sat") = true :=
  C6_amended.1 (pstr "the cat sat, the cat sat") 3 3
    (by decide) (by decide) (by decide) (by decide)

/-- Claim C7: if a dispatch cycle delivers an accepted text `t` (at
least 2 characters after stripping, different from the previous
delivery), a second consecutive cycle producing exactly the same text
is suppressed — exactly one subtitle is delivered over the two
cycles. -/
theorem C7_duplicate_suppression (last0 t : List Char)
    (h2 : 2 ≤ (stripChars t).length) (hne : t ≠ last0) :
    dispatch_result_step last0 t = (some t, t)
    ∧ dispatch_result_step t t = (none, t) := by
  have hnotshort : ¬(t = [] ∨ (stripChars t).length < 2) := by
    rintro (rfl | hlt)
    · have h0 : (stripChars ([] : List Char)).length = 0 := rfl
      omega
    · omega
  constructor
  · unfold dispatch_result_step
    rw [if_neg hnotshort, if_neg hne]
  · unfold dispatch_result_step
    rw [if_neg hnotshort, if_pos rfl]

/-- Claim C7 witness: two consecutive cycles producing `"hello"` after
an empty previous output deliver it exactly once. -/
theorem C7_duplicate_suppression_witness :
    dispatch_result_step [] (pstr "hello") = (some (pstr "hello"), pstr "hello")
    ∧ dispatch_result_step (pstr "hello") (pstr "hello") = (none, pstr "hello") :=
  C7_duplicate_suppression [] (pstr "hello") (by decide) (by decide)

/-- Claim C10: while delivery is paused, `send_subtitle` returns with
no state change whatsoever — history, counters, latency samples and
average, speaker index and last-delivery timestamps are untouched and
nothing is emitted, for every input text. -/
theorem C10_paused_frame (st : ServerState) (text source : List Char)
    (latency_sec now : ℚ) (hp : st.paused = true) :
    send_subtitle st text source latency_sec now = (st, []) := by
  unfold send_subtitle
  by_cases h : text = [] ∨ stripChars text = []
  · rw [if_pos h]
  · rw [if_neg h, if_pos hp]

/-- Claim C10 witness: a concrete paused server swallows `"hi"`
unchanged. -/
theorem C10_paused_frame_witness :
    send_subtitle ⟨true, [], 10, 0, none, [], 0, 0, none⟩ (pstr "hi") [] 1 0
      = (⟨true, [], 10, 0, none, [], 0, 0, none⟩, []) :=
  C10_paused_frame ⟨true, [], 10, 0, none, [], 0, 0, none⟩ (pstr "hi") [] 1 0 rfl

end Jife
